import Mathlib

/-!
Verification development for the WipeOut certificate issuance and
verification engine (backend/src/services/certificateService.js and the
KMS dispatch service kmsService.js).

The JavaScript code is shallowly embedded as executable Lean definitions:

* JSON values are modelled by the mutual inductive `Json`/`JMembers`;
  member lists keep insertion order, as ECMAScript objects do.
* `Json.stringify` models `JSON.stringify(x)` (no replacer): members are
  serialized in insertion order.  `Json.stringifyR K` models
  `JSON.stringify(x, K)` with a replacer array `K`: per ECMA-262
  SerializeJSONObject, at every nesting level the keys are enumerated in
  the order of `K` and keys not in `K` are dropped.  String values in the
  attested payloads contain no characters that JSON would escape, so
  quoting a string is modelled as surrounding it with double quotes.
* `Object.keys(data).sort()` is modelled by `jsSortKeys`, insertion sort
  by the code-unit lexicographic comparison `strLeb` (the default
  ECMAScript string comparison).
* SHA-256 and the local RSA signature are modelled as injective symbolic
  functions (`sha256`, `localSign`): the collision-free / unforgeable
  idealization.  A digest or signature is represented by a tagged copy of
  its input bytes.
* Timestamps inside a `WipeRecord` are modelled as epoch-millisecond
  numbers, an input shape accepted by both `moment(...)` and
  `JSON.stringify`.
* File-system effects are modelled by explicit state passing over
  `FsState`; remote KMS calls are modelled by an oracle argument giving
  the outcome of the (single) remote call a run performs.
-/

set_option linter.unusedVariables false

open List

/-! ## Lexicographic string comparison and key sorting (Object.keys(...).sort()) -/

/-- Code-unit lexicographic comparison of character lists, the order used by
the default ECMAScript `Array.prototype.sort` on strings. -/
def charsLe : List Char → List Char → Bool
  | [], _ => true
  | _ :: _, [] => false
  | a :: as, b :: bs => if a < b then true else if b < a then false else charsLe as bs

/-- Lexicographic comparison of strings by their character data. -/
def strLeb (a b : String) : Bool := charsLe a.data b.data

/-- Propositional form of `strLeb`. -/
def sLe (a b : String) : Prop := strLeb a b = true

instance : DecidableRel sLe := fun a b => inferInstanceAs (Decidable (_ = true))

theorem charsLe_total (as bs : List Char) : charsLe as bs = true ∨ charsLe bs as = true := by
  induction as generalizing bs with
  | nil => left; rfl
  | cons a as ih =>
    cases bs with
    | nil => right; rfl
    | cons b bs =>
      rcases lt_trichotomy a b with h | h | h
      · left; simp [charsLe, h]
      · subst h; rcases ih bs with h2 | h2 <;> simp [charsLe, h2, lt_irrefl]
      · right; simp [charsLe, h]

theorem charsLe_antisymm (as bs : List Char) (h1 : charsLe as bs = true)
    (h2 : charsLe bs as = true) : as = bs := by
  induction as generalizing bs with
  | nil => cases bs with
    | nil => rfl
    | cons b bs => simp [charsLe] at h2
  | cons a as ih =>
    cases bs with
    | nil => simp [charsLe] at h1
    | cons b bs =>
      rcases lt_trichotomy a b with h | h | h
      · simp [charsLe, h, asymm h] at h2
      · subst h
        simp [charsLe, lt_irrefl] at h1 h2
        rw [ih bs h1 h2]
      · simp [charsLe, h, asymm h] at h1

theorem charsLe_trans (as bs cs : List Char) (h1 : charsLe as bs = true)
    (h2 : charsLe bs cs = true) : charsLe as cs = true := by
  induction as generalizing bs cs with
  | nil => rfl
  | cons a as ih =>
    cases bs with
    | nil => simp [charsLe] at h1
    | cons b bs =>
      cases cs with
      | nil => simp [charsLe] at h2
      | cons c cs =>
        rcases lt_trichotomy a b with hab | hab | hab <;>
          rcases lt_trichotomy b c with hbc | hbc | hbc
        · simp [charsLe, lt_trans hab hbc]
        · subst hbc; simp [charsLe, hab]
        · simp [charsLe, hbc, asymm hbc] at h2
        · subst hab; simp [charsLe, hbc]
        · subst hab; subst hbc
          simp [charsLe, lt_irrefl] at h1 h2 ⊢
          exact ih bs cs h1 h2
        · simp [charsLe, hbc, asymm hbc] at h2
        · simp [charsLe, hab, asymm hab] at h1
        · simp [charsLe, hab, asymm hab] at h1
        · simp [charsLe, hab, asymm hab] at h1

theorem strLeb_antisymm (a b : String) (h1 : strLeb a b = true) (h2 : strLeb b a = true) :
    a = b := by
  cases a; cases b
  exact congrArg String.mk (charsLe_antisymm _ _ h1 h2)

instance : IsAntisymm String sLe := ⟨strLeb_antisymm⟩
instance : IsTotal String sLe := ⟨fun a b => charsLe_total a.data b.data⟩
instance : IsTrans String sLe := ⟨fun a b c => charsLe_trans a.data b.data c.data⟩

/-- Model of `Object.keys(data).sort()`: sort a key list lexicographically. -/
def jsSortKeys (l : List String) : List String := List.insertionSort sLe l

theorem jsSortKeys_eq_of_perm (l1 l2 : List String) (h : l1 ~ l2) :
    jsSortKeys l1 = jsSortKeys l2 :=
  List.eq_of_perm_of_sorted
    (((List.perm_insertionSort sLe l1).trans h).trans (List.perm_insertionSort sLe l2).symm)
    (List.sorted_insertionSort sLe l1) (List.sorted_insertionSort sLe l2)

/-! ## JSON values -/

mutual
/-- A JSON value as manipulated by the certificate service: the attested
payloads contain only strings, integers, booleans and nested objects. -/
inductive Json where
  | str (s : String)
  | int (n : Int)
  | bool (b : Bool)
  | obj (members : JMembers)
/-- Object member list in insertion order (ECMAScript property order for
string keys created by object literals and assignment). -/
inductive JMembers where
  | nil
  | cons (key : String) (value : Json) (rest : JMembers)
end

deriving instance DecidableEq for Json, JMembers
deriving instance Repr for Json, JMembers

/-- Keys of an object member list, in insertion order. -/
def JMembers.keys : JMembers → List String
  | .nil => []
  | .cons k _ rest => k :: rest.keys

/-- Property lookup (objects built by the service have unique keys). -/
def JMembers.lookup : JMembers → String → Option Json
  | .nil, _ => none
  | .cons k v rest, key => if key == k then some v else rest.lookup key

/-- Model of the JavaScript `delete obj[key]`: drop the property, keeping the
order of the remaining members. -/
def JMembers.removeKey : JMembers → String → JMembers
  | .nil, _ => .nil
  | .cons k v rest, key => if k == key then rest.removeKey key else .cons k v (rest.removeKey key)

/-- Model of property assignment `obj[key] = v` for a fresh key: append the
member, which is where ECMAScript puts a newly created string key. -/
def JMembers.addField : JMembers → String → Json → JMembers
  | .nil, k, v => .cons k v .nil
  | .cons k0 v0 rest, k, v => .cons k0 v0 (rest.addField k v)

/-- View the member list as an association list. -/
def JMembers.toList : JMembers → List (String × Json)
  | .nil => []
  | .cons k v rest => (k, v) :: rest.toList

/-- Top-level keys of a JSON value (`Object.keys(data)` on an object). -/
def Json.topKeys : Json → List String
  | .obj ms => ms.keys
  | _ => []

/-- Append a property at top level (used for `certificateData.dataHash = ...`
and `certificateData.signature = ...`). -/
def Json.addField (j : Json) (k : String) (v : Json) : Json :=
  match j with
  | .obj ms => .obj (ms.addField k v)
  | other => other

/-- Remove a top-level property (used for `delete dataToVerify.signature`). -/
def Json.removeField (j : Json) (k : String) : Json :=
  match j with
  | .obj ms => .obj (ms.removeKey k)
  | other => other

/-- Read a top-level string property; the payloads read by the verification
pipeline always carry the accessed properties as strings. -/
def Json.getStr (j : Json) (k : String) : String :=
  match j with
  | .obj ms =>
    match ms.lookup k with
    | some (.str s) => s
    | _ => ""
  | _ => ""

/-- JSON quoting of a string; the attested fields contain no characters that
JSON.stringify would escape. -/
def jstr (s : String) : String := "\"" ++ s ++ "\""

mutual
/-- Model of `JSON.stringify(x)` without replacer: compact output, members in
insertion order. -/
def Json.stringify : Json → String
  | .str s => jstr s
  | .int n => toString n
  | .bool b => cond b "true" "false"
  | .obj ms => "\x7b" ++ ms.stringifyMembers ++ "\x7d"
/-- Serialize a member list in insertion order, comma separated. -/
def JMembers.stringifyMembers : JMembers → String
  | .nil => ""
  | .cons k v .nil => jstr k ++ ":" ++ v.stringify
  | .cons k v (.cons k2 v2 rest) =>
    jstr k ++ ":" ++ v.stringify ++ "," ++ (JMembers.cons k2 v2 rest).stringifyMembers
end

/-- Comma-join a list of already-rendered members. -/
def commaJoin : List String → String
  | [] => ""
  | [x] => x
  | x :: y :: rest => x ++ "," ++ commaJoin (y :: rest)

/-- Per ECMA-262 SerializeJSONObject with a PropertyList `K`: enumerate the
keys in the order of `K`, keep those the object actually has, and render each
kept member from its already-rendered value. -/
def orderByK (K : List String) (rendered : List (String × String)) : List String :=
  K.filterMap (fun k => (rendered.lookup k).map (fun s => jstr k ++ ":" ++ s))

mutual
/-- Model of `JSON.stringify(x, K)` with a replacer array `K`: the same
`K` filters and orders the members of every object at every nesting level. -/
def Json.stringifyR (K : List String) : Json → String
  | .str s => jstr s
  | .int n => toString n
  | .bool b => cond b "true" "false"
  | .obj ms => "\x7b" ++ commaJoin (orderByK K (ms.renderMembers K)) ++ "\x7d"
/-- Render every member value of an object with `stringifyR K`, keeping
insertion order and all keys (filtering happens in `orderByK`). -/
def JMembers.renderMembers (K : List String) : JMembers → List (String × String)
  | .nil => []
  | .cons k v rest => (k, v.stringifyR K) :: rest.renderMembers K
end

/-! ## Symbolic cryptography -/

/-- SHA-256 modelled as an injective symbolic function (collision-free
idealization): a digest is represented by a tagged copy of its input. -/
def sha256 (s : String) : String := "SHA256:" ++ s

/-- The local provider's deterministic RSA-SHA256 signature (kmsService
signWithLocal), modelled as an injective symbolic function of the signed
bytes under the process key pair: unforgeability idealization. -/
def localSign (data : String) : String := "RSA-SHA256-SIG:" ++ data

theorem sha256_injective (s t : String) (h : sha256 s = sha256 t) : s = t := by
  have hd := congrArg String.data h
  simp only [sha256, String.data_append] at hd
  cases s; cases t
  exact congrArg String.mk (by simpa using hd)

theorem localSign_injective (s t : String) (h : localSign s = localSign t) : s = t := by
  have hd := congrArg String.data h
  simp only [localSign, String.data_append] at hd
  cases s; cases t
  exact congrArg String.mk (by simpa using hd)

/-! ## KMS service (kmsService.js) -/

/-- The four signing backends of kmsService.js. -/
inductive Provider
  | aws
  | gcp
  | azure
  | localKeys
deriving DecidableEq, Repr

/-- Outcome of the single remote KMS sign call a run performs: either the
remote service returns a signature, or the call fails (network, timeout,
authorization error), which in JavaScript is a thrown/rejected error. -/
inductive RemoteSign
  | ok (sig : String)
  | err (msg : String)
deriving DecidableEq, Repr

/-- Outcome of the single remote KMS verify call a run performs: either the
remote service completes and reports whether the signature is valid, or the
call fails (network, timeout, authorization error). -/
inductive RemoteVerify
  | ok (b : Bool)
  | err (msg : String)
deriving DecidableEq, Repr

/-- The KMS service instance: the provider choice is fixed at construction
(`this.provider = this.detectProvider()`) and never reassigned. -/
structure KMSService where
  provider : Provider
deriving DecidableEq, Repr

/-- JavaScript truthiness of an environment variable: set and non-empty. -/
def truthy : Option String → Bool
  | some s => !(s == "")
  | none => false

/-- Model of KMSService.detectProvider: the first backend whose environment
variables are truthy wins, in the fixed order aws, gcp, azure; otherwise the
local fallback is chosen and `logger.warn` fires (the returned Bool records
whether the warning was emitted). -/
def detectProvider (env : String → Option String) : Provider × Bool :=
  if truthy (env "AWS_REGION") && truthy (env "KMS_KEY_ID") then (.aws, false)
  else if truthy (env "GOOGLE_CLOUD_PROJECT") && truthy (env "GCP_KMS_KEY") then (.gcp, false)
  else if truthy (env "AZURE_KEY_VAULT_URL") then (.azure, false)
  else (.localKeys, true)

/-- Model of the KMSService constructor: the provider binding is resolved
once from the environment and stored. -/
def mkKMSService (env : String → Option String) : KMSService :=
  { provider := (detectProvider env).1 }

/-- Model of KMSService.signData: dispatch on the stored provider.  The aws
and gcp backends perform a remote call whose outcome is the oracle; a failed
call is logged and rethrown (`Except.error`).  The azure backend throws
unconditionally (not implemented).  The local backend signs with the local
RSA key and cannot fail. -/
def signData (svc : KMSService) (remote : RemoteSign) (data : String) : Except String String :=
  match svc.provider with
  | .aws | .gcp =>
    match remote with
    | .ok sig => .ok sig
    | .err e => .error e
  | .azure => .error "Azure KMS signing not fully implemented in this demo"
  | .localKeys => .ok (localSign data)

/-- Model of KMSService.verifySignature: dispatch on the stored provider.
For aws and gcp the inner try/catch turns a failed remote call into `false`;
for azure the thrown error is caught by the outer try/catch of
verifySignature, which also returns `false`; the local backend checks the
signature against the local public key (true exactly for the genuine
signature of the data, by the unforgeability idealization). -/
def verifySignature (svc : KMSService) (remote : RemoteVerify) (data signature : String) : Bool :=
  match svc.provider with
  | .aws | .gcp =>
    match remote with
    | .ok b => b
    | .err _ => false
  | .azure => false
  | .localKeys => signature == localSign data

/-- Modelled from the spec: the Provider Selector contract of sections 4.3
and 6 — an ordered table of variants with their required configuration
settings; the first variant whose settings are all present wins, otherwise
the Local variant is selected together with a loud non-fatal warning. -/
def providerRequirements : List (Provider × List String) :=
  [(.aws, ["AWS_REGION", "KMS_KEY_ID"]),
   (.gcp, ["GOOGLE_CLOUD_PROJECT", "GCP_KMS_KEY"]),
   (.azure, ["AZURE_KEY_VAULT_URL"])]

/-- Modelled from the spec: first fully-configured provider wins, else the
Local fallback with a warning. -/
def specSelectProvider (env : String → Option String) : Provider × Bool :=
  match providerRequirements.find? (fun pr => pr.2.all (fun v => truthy (env v))) with
  | some pr => (pr.1, false)
  | none => (.localKeys, true)

/-! ## Certificate service (certificateService.js) -/

/-- The fields of the incoming wipe record that generateCertificate reads.
Timestamps are epoch milliseconds; verification and coreEngineVersion are
optional and defaulted by the code (`|| false`, `|| 'Unknown'`). -/
structure WipeData where
  deviceId : String
  serialNumber : String
  algorithm : String
  passes : Int
  startTime : Nat
  endTime : Nat
  status : String
  verification : Option Bool
  submissionId : String
  serverVersion : String
  coreEngineVersion : Option String
  submissionTime : String
  ipAddress : String
deriving DecidableEq, Repr

/-- Model of calculateDuration: moment components of the difference
(`endTime - startTime`, in milliseconds): total whole hours, the minute
component 0..59, the second component 0..59, rendered with the larger
leading components omitted when zero. -/
def calculateDuration (startMs endMs : Nat) : String :=
  let durationMs := endMs - startMs
  let hours := durationMs / 3600000
  let minutes := durationMs % 3600000 / 60000
  let seconds := durationMs % 60000 / 1000
  if hours > 0 then
    toString hours ++ "h " ++ toString minutes ++ "m " ++ toString seconds ++ "s"
  else if minutes > 0 then
    toString minutes ++ "m " ++ toString seconds ++ "s"
  else
    toString seconds ++ "s"

/-- Model of generateDataHash: SHA-256 of
`JSON.stringify(data, Object.keys(data).sort())` — the serialization whose
replacer array is the sorted list of the argument's own top-level keys. -/
def generateDataHash (data : Json) : String :=
  sha256 (data.stringifyR (jsSortKeys data.topKeys))

/-- The wipeDetails sub-object built by generateCertificate, in source
order. -/
def wipeDetailsOf (w : WipeData) : JMembers :=
  .cons "deviceId" (.str w.deviceId) <|
  .cons "serialNumber" (.str w.serialNumber) <|
  .cons "algorithm" (.str w.algorithm) <|
  .cons "passes" (.int w.passes) <|
  .cons "startTime" (.int w.startTime) <|
  .cons "endTime" (.int w.endTime) <|
  .cons "duration" (.str (calculateDuration w.startTime w.endTime)) <|
  .cons "status" (.str w.status) <|
  .cons "verification" (.bool (w.verification.getD false)) <|
  .cons "submissionId" (.str w.submissionId) .nil

/-- The metadata sub-object built by generateCertificate, in source order. -/
def metadataOf (w : WipeData) : JMembers :=
  .cons "serverVersion" (.str w.serverVersion) <|
  .cons "coreEngineVersion" (.str (w.coreEngineVersion.getD "Unknown")) <|
  .cons "submissionTime" (.str w.submissionTime) <|
  .cons "ipAddress" (.str w.ipAddress) .nil

/-- The certificateData object literal of generateCertificate (before the
dataHash and signature properties are added), in source order. -/
def certDataCore (certificateId timestamp issuer : String) (w : WipeData) : JMembers :=
  .cons "certificateId" (.str certificateId) <|
  .cons "timestamp" (.str timestamp) <|
  .cons "version" (.str "1.0") <|
  .cons "issuer" (.str issuer) <|
  .cons "wipeDetails" (.obj (wipeDetailsOf w)) <|
  .cons "metadata" (.obj (metadataOf w)) .nil

/-- JavaScript `x || dflt` for an environment string. -/
def jsOrDefault (o : Option String) (dflt : String) : String :=
  match o with
  | some s => if s == "" then dflt else s
  | none => dflt

/-- JavaScript template interpolation of a possibly-undefined value. -/
def jsTemplate (o : Option String) : String := o.getD "undefined"

/-- Contents of a file in the certificate directory: the rendered PDF (the
model keeps the payload it was rendered from) or the JSON metadata file. -/
inductive FileContent
  | pdf (payload : Json)
  | json (payload : Json)
deriving DecidableEq, Repr

/-- The certificate directory, newest write first; `fs.writeFileSync` is a
direct write to the final path, modelled by prepending (lookup sees the
newest version). -/
def FsState := List (String × FileContent)

/-- Look up a file by name. -/
def FsState.read (fs : FsState) (name : String) : Option FileContent :=
  List.lookup name fs

/-- Model of `fs.writeFileSync(name, content)`: a direct, non-atomic write
straight to the final path (no temporary file, no rename). -/
def FsState.write (fs : FsState) (name : String) (content : FileContent) : FsState :=
  (name, content) :: fs

/-- Read and parse the JSON metadata file, as the verification pipeline
does; writing with `JSON.stringify(x, null, 2)` and reading back with
`JSON.parse` preserves the member structure and order, so the model stores
the parsed value. -/
def FsState.readJsonFile (fs : FsState) (name : String) : Option Json :=
  match fs.read name with
  | some (.json j) => some j
  | _ => none

/-- The value returned by generateCertificate on success. -/
structure GenResult where
  certificateId : String
  pdfPath : String
  downloadUrl : String
  verificationUrl : String
  signature : String
  dataHash : String
deriving DecidableEq, Repr

deriving instance DecidableEq for Except

/-- Model of generateCertificate.  Effects are explicit: `certificateId` and
`timestamp` stand for the fresh uuid and `new Date().toISOString()`;
`signOracle` is the outcome of the remote sign call (unused by the local
backend); `metadataWriteOk` says whether the final `writeFileSync` of the
JSON metadata succeeds; `fs` is the certificate directory.  Control flow
mirrors the source: build certificateData, hash it, add dataHash, sign the
serialized payload, add signature, write the PDF, then write the JSON
metadata; any thrown error is caught and rewrapped as
`Certificate generation failed: ...`. -/
def generateCertificate (svc : KMSService) (signOracle : RemoteSign)
    (issuerEnv apiBaseEnv : Option String) (certificateId timestamp : String)
    (wipeData : WipeData) (metadataWriteOk : Bool) (fs : FsState) :
    Except String GenResult × FsState :=
  let issuer := jsOrDefault issuerEnv "Secure Data Solutions"
  let certificateData := Json.obj (certDataCore certificateId timestamp issuer wipeData)
  let dataHash := generateDataHash certificateData
  let withHash := certificateData.addField "dataHash" (.str dataHash)
  match signData svc signOracle withHash.stringify with
  | .error e => (.error ("Certificate generation failed: " ++ e), fs)
  | .ok signature =>
    let signed := withHash.addField "signature" (.str signature)
    let verificationUrl :=
      jsTemplate apiBaseEnv ++ "/api/certificate/verify/" ++ certificateId
    let pdfPath := certificateId ++ ".pdf"
    let fs1 := fs.write pdfPath (.pdf signed)
    if metadataWriteOk then
      let fs2 := fs1.write (certificateId ++ ".json") (.json signed)
      (.ok { certificateId := certificateId, pdfPath := pdfPath,
             downloadUrl := "/api/certificate/download/" ++ certificateId,
             verificationUrl := verificationUrl, signature := signature,
             dataHash := dataHash }, fs2)
    else
      (.error ("Certificate generation failed: metadata write failed"), fs1)

/-- The two checks verifyCertificate can perform, in the order the run
performs them (used to settle the check-ordering claim). -/
inductive VEvent
  | kmsVerifyCall
  | digestCheck
deriving DecidableEq, Repr

/-- Verdict of verifyCertificate: the code returns an object with
`valid:false` plus an `error` string, or `valid:true` plus the payload. -/
inductive VerifyResult
  | invalid (error : String)
  | valid (certificateData : Json)
deriving DecidableEq, Repr

/-- Model of verifyCertificate.  Load the JSON metadata by id (missing file
is the not-found verdict); strip the signature property; call the KMS
verify on the serialized remainder against the stored signature (the
remote outcome is the oracle); if that fails report Invalid signature;
otherwise recompute generateDataHash of the remainder — which still
contains the dataHash property — and compare it with the stored dataHash;
a mismatch is the data-integrity verdict, else the certificate is valid.
The second component records which checks ran, in order. -/
def verifyCertificate (svc : KMSService) (verifyOracle : RemoteVerify) (fs : FsState)
    (certificateId : String) : VerifyResult × List VEvent :=
  match fs.readJsonFile (certificateId ++ ".json") with
  | none => (.invalid "Certificate not found", [])
  | some certificateData =>
    let dataToVerify := certificateData.removeField "signature"
    let isSignatureValid :=
      verifySignature svc verifyOracle dataToVerify.stringify (certificateData.getStr "signature")
    if !isSignatureValid then
      (.invalid "Invalid signature", [.kmsVerifyCall])
    else
      let currentHash := generateDataHash dataToVerify
      if currentHash != certificateData.getStr "dataHash" then
        (.invalid "Data integrity check failed", [.kmsVerifyCall, .digestCheck])
      else
        (.valid certificateData, [.kmsVerifyCall, .digestCheck])

/-! ## Tampering helpers and derived descriptions of issued certificates -/

/-- Model of property assignment `obj[key] = v` for an existing key: the value
is replaced in place, the property order is unchanged. -/
def JMembers.setField : JMembers → String → Json → JMembers
  | .nil, _, _ => .nil
  | .cons k v rest, key, nv =>
    if k == key then .cons k nv rest else .cons k v (rest.setField key nv)

/-- Replace the value of an existing top-level property (a model of mutating
one field of a persisted certificate before verification). -/
def Json.setField (j : Json) (k : String) (v : Json) : Json :=
  match j with
  | .obj ms => .obj (ms.setField k v)
  | other => other

/-- The fully signed payload that the issuance pipeline persists for a given
certificate id, timestamp and wipe record when the local provider signs:
the certificateData literal, plus the dataHash property, plus the signature
over the serialization that includes the dataHash. -/
def signedPayloadOf (issuerEnv : Option String) (id ts : String) (w : WipeData) : Json :=
  let core := Json.obj (certDataCore id ts (jsOrDefault issuerEnv "Secure Data Solutions") w)
  let withHash := core.addField "dataHash" (.str (generateDataHash core))
  withHash.addField "signature" (.str (localSign withHash.stringify))

/-! ## Concrete data for counterexamples and witnesses -/

/-- The dod 3-pass scenario record of the spec (90-second wipe). -/
def sampleWipe : WipeData :=
  { deviceId := "dev-1", serialNumber := "SN1", algorithm := "dod", passes := 3,
    startTime := 0, endTime := 90000, status := "success", verification := none,
    submissionId := "sub-1", serverVersion := "1.0.0", coreEngineVersion := none,
    submissionTime := "t0", ipAddress := "127.0.0.1" }

/-- The payload persisted when the scenario record is issued as cert-1. -/
def issuedPayload : Json := signedPayloadOf none "cert-1" "TS1" sampleWipe

/-- Certificate store holding the untampered issued certificate. -/
def issuedStore : FsState := [("cert-1" ++ ".json", .json issuedPayload)]

/-- The issued certificate with one attested field (issuer) mutated. -/
def tamperedIssuerStore : FsState :=
  [("cert-1" ++ ".json", .json (issuedPayload.setField "issuer" (.str "Evil Corp")))]

/-- The issued certificate with only the dataHash field mutated. -/
def tamperedHashStore : FsState :=
  [("cert-1" ++ ".json", .json (issuedPayload.setField "dataHash" (.str "bogus")))]

/-- Two objects with the same property set in different insertion order. -/
def permA : JMembers := .cons "alpha" (.int 1) (.cons "beta" (.int 2) .nil)

/-- The members of permA in the opposite insertion order. -/
def permB : JMembers := .cons "beta" (.int 2) (.cons "alpha" (.int 1) .nil)

/-- An issuance run (local provider) whose final metadata write fails. -/
def failedRunLocal : Except String GenResult × FsState :=
  generateCertificate ⟨.localKeys⟩ (.ok "unused") none none "cert-2" "TS2" sampleWipe false []

/-! ## Evaluation lemmas -/

theorem sortKeys6 :
    jsSortKeys ["certificateId", "timestamp", "version", "issuer", "wipeDetails", "metadata"]
    = ["certificateId", "issuer", "metadata", "timestamp", "version", "wipeDetails"] := by
  decide

theorem sortKeys7 :
    jsSortKeys ["certificateId", "timestamp", "version", "issuer", "wipeDetails", "metadata",
      "dataHash"]
    = ["certificateId", "dataHash", "issuer", "metadata", "timestamp", "version",
      "wipeDetails"] := by
  decide

/-- The digest the verification pipeline recomputes — taken over the payload
that still contains the dataHash property — differs from the digest computed
at issuance over the payload without it, whatever the stored hash value is:
the serialized forms differ (the former contains an extra member), and the
digest function is injective in the symbolic model. -/
theorem certHash_ne (id ts iss h : String) (w : WipeData) :
    generateDataHash (Json.obj ((certDataCore id ts iss w).addField "dataHash" (.str h)))
    ≠ generateDataHash (Json.obj (certDataCore id ts iss w)) := by
  intro heq
  have heq2 := sha256_injective _ _ heq
  have hlen := congrArg String.length heq2
  simp [generateDataHash, Json.stringifyR, JMembers.renderMembers, orderByK,
    List.filterMap, List.lookup, certDataCore, wipeDetailsOf, metadataOf, commaJoin,
    JMembers.addField, jstr, sortKeys6, sortKeys7, Json.topKeys, JMembers.keys,
    String.length_append] at hlen
  exact absurd hlen.1.1 (by decide)

/-- Evaluation of the issuance pipeline with the local signing backend and a
succeeding metadata write: the result and the two files written. -/
theorem gen_local_eval (so : RemoteSign) (ie ab : Option String) (id ts : String)
    (w : WipeData) (fs : FsState) :
    generateCertificate ⟨.localKeys⟩ so ie ab id ts w true fs
    = (.ok { certificateId := id, pdfPath := id ++ ".pdf",
             downloadUrl := "/api/certificate/download/" ++ id,
             verificationUrl := jsTemplate ab ++ "/api/certificate/verify/" ++ id,
             signature := (signedPayloadOf ie id ts w).getStr "signature",
             dataHash := (signedPayloadOf ie id ts w).getStr "dataHash" },
       (id ++ ".json", .json (signedPayloadOf ie id ts w))
         :: (id ++ ".pdf", .pdf (signedPayloadOf ie id ts w)) :: fs) := by
  simp [generateCertificate, signData, signedPayloadOf, FsState.write, Json.getStr,
    Json.addField, JMembers.addField, JMembers.lookup, certDataCore, wipeDetailsOf, metadataOf]

/-- Verifying a certificate exactly as issued (local backend): the signature
check passes, but the recomputed digest — taken over data that includes the
stored dataHash — mismatches, so the run ends in the data-integrity verdict. -/
theorem verify_issued_local (oracle : RemoteVerify) (ie : Option String) (id ts : String)
    (w : WipeData) (rest : FsState) :
    verifyCertificate ⟨.localKeys⟩ oracle
      ((id ++ ".json", .json (signedPayloadOf ie id ts w)) :: rest) id
    = (.invalid "Data integrity check failed", [.kmsVerifyCall, .digestCheck]) := by
  have hne := certHash_ne id ts (jsOrDefault ie "Secure Data Solutions")
    (generateDataHash (Json.obj (certDataCore id ts (jsOrDefault ie "Secure Data Solutions") w))) w
  simp only [certDataCore, wipeDetailsOf, metadataOf, Json.addField, JMembers.addField] at hne
  simp [verifyCertificate, FsState.readJsonFile, FsState.read, List.lookup, signedPayloadOf,
    Json.removeField, JMembers.removeKey, Json.addField, JMembers.addField, Json.getStr,
    JMembers.lookup, certDataCore, wipeDetailsOf, metadataOf, verifySignature, hne, bne_iff_ne]

/-- The stored signature of an issued certificate is the local signature of
the signature-stripped serialization of the stored payload. -/
theorem signedPayload_sig_eval (ie : Option String) (id ts : String) (w : WipeData) :
    (signedPayloadOf ie id ts w).getStr "signature"
    = localSign ((signedPayloadOf ie id ts w).removeField "signature").stringify := by
  simp [signedPayloadOf, Json.getStr, Json.removeField, Json.addField, JMembers.addField,
    JMembers.lookup, JMembers.removeKey, certDataCore, wipeDetailsOf, metadataOf]

/-- The metadata file name and the PDF file name of one certificate differ. -/
theorem json_ne_pdf (id : String) : (id ++ ".json") ≠ (id ++ ".pdf") := by
  intro h
  have hlen := congrArg String.length h
  simp [String.length_append] at hlen
  exact absurd hlen (by decide)

/-! ## Permutation lemmas for the digest canonicalization -/

theorem JMembers.keys_eq_map : (ms : JMembers) → ms.keys = ms.toList.map Prod.fst
  | .nil => rfl
  | .cons k v rest => by simp [JMembers.keys, JMembers.toList, keys_eq_map rest]

theorem JMembers.lookup_toList : (ms : JMembers) → ∀ k, ms.lookup k = List.lookup k ms.toList
  | .nil, _ => rfl
  | .cons key v rest, k => by
    simp only [JMembers.lookup, JMembers.toList, List.lookup]
    cases hk : k == key <;> simp [hk, lookup_toList rest k]

/-- Association-list lookup is invariant under permutation when the keys are
distinct. -/
theorem lookup_eq_of_perm (l1 l2 : List (String × Json)) (hp : l1 ~ l2)
    (hn : (l1.map Prod.fst).Nodup) (k : String) :
    List.lookup k l1 = List.lookup k l2 := by
  induction hp with
  | nil => rfl
  | cons x p ih =>
    simp only [List.lookup]
    cases hk : k == x.1 with
    | true => rfl
    | false =>
      apply ih
      simp only [List.map] at hn
      exact hn.of_cons
  | swap x y l =>
    have hxy : y.1 ≠ x.1 := by
      simp only [List.map] at hn
      have h1 := (List.nodup_cons.mp hn).1
      exact fun h => h1 (h ▸ List.mem_cons_self _ _)
    simp only [List.lookup]
    cases hky : k == y.1 <;> cases hkx : k == x.1 <;> simp [hky, hkx]
    exact absurd ((beq_iff_eq.mp hky).symm.trans (beq_iff_eq.mp hkx)) hxy
  | trans p1 p2 ih1 ih2 =>
    have hn2 := (p1.map Prod.fst).nodup hn
    exact (ih1 hn).trans (ih2 hn2)

theorem renderMembers_lookup (K : List String) : (ms : JMembers) → ∀ k,
    List.lookup k (ms.renderMembers K) = (ms.lookup k).map (fun v => v.stringifyR K)
  | .nil, _ => rfl
  | .cons key v rest, k => by
    simp only [JMembers.renderMembers, JMembers.lookup, List.lookup]
    cases hk : k == key <;> simp [hk, renderMembers_lookup K rest k]

/-- Closed form of the replacer-array serialization of an object: it depends
on the object only through its property lookup function. -/
theorem stringifyR_obj (K : List String) (ms : JMembers) :
    Json.stringifyR K (.obj ms)
    = "\x7b" ++ commaJoin (K.filterMap
        (fun k => (ms.lookup k).map (fun v => jstr k ++ ":" ++ v.stringifyR K))) ++ "\x7d" := by
  have h : orderByK K (ms.renderMembers K)
      = K.filterMap (fun k => (ms.lookup k).map (fun v => jstr k ++ ":" ++ v.stringifyR K)) := by
    unfold orderByK
    apply List.filterMap_congr
    intro k _
    rw [renderMembers_lookup, Option.map_map]
    rfl
  simp only [Json.stringifyR, h]

/-- The hashing serialization is insertion-order independent: two objects
with the same property set (same key/value pairs, keys distinct) produce the
same digest, because the replacer array is the sorted key list and property
lookup is order-independent. -/
theorem gdh_of_perm (ms1 ms2 : JMembers) (hp : ms1.toList ~ ms2.toList)
    (hn : (ms1.toList.map Prod.fst).Nodup) :
    generateDataHash (.obj ms1) = generateDataHash (.obj ms2) := by
  have hk : jsSortKeys ms1.keys = jsSortKeys ms2.keys := by
    rw [JMembers.keys_eq_map, JMembers.keys_eq_map]
    exact jsSortKeys_eq_of_perm _ _ (hp.map _)
  have hl : ∀ k, ms1.lookup k = ms2.lookup k := fun k => by
    rw [JMembers.lookup_toList, JMembers.lookup_toList]
    exact lookup_eq_of_perm _ _ hp hn k
  simp [generateDataHash, Json.topKeys, hk, stringifyR_obj, hl]

/-! ## Provider selection refinement -/

theorem detect_eq_spec (env : String → Option String) :
    detectProvider env = specSelectProvider env := by
  cases h1 : truthy (env "AWS_REGION") <;> cases h2 : truthy (env "KMS_KEY_ID") <;>
    cases h3 : truthy (env "GOOGLE_CLOUD_PROJECT") <;> cases h4 : truthy (env "GCP_KMS_KEY") <;>
    cases h5 : truthy (env "AZURE_KEY_VAULT_URL") <;>
    simp [detectProvider, specSelectProvider, providerRequirements, List.find?, List.all,
      h1, h2, h3, h4, h5]

/-! ## Claims -/

/-- Claim C1: the spec states that for every valid WipeRecord r, verifying
the certificate issued for r yields a valid verdict.  The code does the
opposite: issuance succeeds, but verification of the untampered certificate
always returns the data-integrity failure, because the digest is recomputed
over the payload that still contains the stored dataHash property while the
issuance-time digest was computed before that property was added.  This
theorem evaluates the embedded code on every input of the local-provider
deployment. -/
theorem claim1_issue_then_verify_reports_data_integrity_failure
    (so : RemoteSign) (oracle : RemoteVerify) (ie ab : Option String) (id ts : String)
    (w : WipeData) (fs : FsState) :
    (∃ r, (generateCertificate ⟨.localKeys⟩ so ie ab id ts w true fs).1 = .ok r
      ∧ r.certificateId = id)
    ∧ verifyCertificate ⟨.localKeys⟩ oracle
        (generateCertificate ⟨.localKeys⟩ so ie ab id ts w true fs).2 id
      = (.invalid "Data integrity check failed", [.kmsVerifyCall, .digestCheck]) := by
  rw [gen_local_eval]
  exact ⟨⟨_, rfl, rfl⟩, verify_issued_local oracle ie id ts w _⟩

set_option maxRecDepth 100000 in
/-- Claim C2 counterexample: mutating the issuer field of an issued
certificate makes verification return the invalid-signature verdict, not the
data-integrity (DataTampered) verdict the claim asserts. -/
theorem claim2_counterexample :
    (verifyCertificate ⟨.localKeys⟩ (.ok true) tamperedIssuerStore "cert-1").1
      = .invalid "Invalid signature"
    ∧ (verifyCertificate ⟨.localKeys⟩ (.ok true) tamperedIssuerStore "cert-1").1
      ≠ .invalid "Data integrity check failed" := by
  constructor <;> decide

/-- Claim C2 (amended): mutating the persisted wipeDetails, metadata,
timestamp or issuer of an issued certificate (any change of the stored
payload that alters its signature-stripped serialization while leaving the
stored signature itself untouched) makes verification return valid:false
with the invalid-signature reason: the signature covers every field and is
checked first, so the data-integrity reason is never reported for such
tampering. -/
theorem claim2_field_tamper_yields_invalid_signature
    (oracle : RemoteVerify) (ie : Option String) (id ts : String) (w : WipeData)
    (rest : FsState) (p' : Json)
    (hsig : p'.getStr "signature" = (signedPayloadOf ie id ts w).getStr "signature")
    (hdiff : (p'.removeField "signature").stringify
      ≠ ((signedPayloadOf ie id ts w).removeField "signature").stringify) :
    verifyCertificate ⟨.localKeys⟩ oracle ((id ++ ".json", .json p') :: rest) id
    = (.invalid "Invalid signature", [.kmsVerifyCall]) := by
  have hb : (p'.getStr "signature"
      == localSign (p'.removeField "signature").stringify) = false := by
    rw [hsig, signedPayload_sig_eval]
    rw [beq_eq_false_iff_ne]
    intro hEq
    exact hdiff (localSign_injective _ _ hEq).symm
  simp [verifyCertificate, FsState.readJsonFile, FsState.read, List.lookup, verifySignature, hb]

set_option maxRecDepth 100000 in
/-- Witness for claim C2 (amended): a concrete timestamp mutation of the
issued scenario certificate is reported as an invalid signature. -/
theorem claim2_witness :
    verifyCertificate ⟨.localKeys⟩ (.ok true)
      [("cert-1" ++ ".json", .json (issuedPayload.setField "timestamp" (.str "TS2")))] "cert-1"
    = (.invalid "Invalid signature", [.kmsVerifyCall]) :=
  claim2_field_tamper_yields_invalid_signature (.ok true) none "cert-1" "TS1" sampleWipe []
    (issuedPayload.setField "timestamp" (.str "TS2")) (by decide) (by decide)

/-- Claim C3: for every issued certificate, mutating the stored signature
field alone (payload and dataHash untouched) makes verification return
valid:false with the invalid-signature reason: the tampered signature no
longer verifies against the unchanged payload bytes. -/
theorem claim3_signature_tamper_yields_invalid_signature
    (oracle : RemoteVerify) (ie : Option String) (id ts : String) (w : WipeData)
    (rest : FsState) (sig' : String)
    (hs : sig' ≠ (signedPayloadOf ie id ts w).getStr "signature") :
    verifyCertificate ⟨.localKeys⟩ oracle
      ((id ++ ".json",
        .json ((signedPayloadOf ie id ts w).setField "signature" (.str sig'))) :: rest) id
    = (.invalid "Invalid signature", [.kmsVerifyCall]) := by
  have hrm : ((signedPayloadOf ie id ts w).setField "signature" (.str sig')).removeField
      "signature" = (signedPayloadOf ie id ts w).removeField "signature" := by
    simp [signedPayloadOf, Json.setField, JMembers.setField, Json.removeField,
      JMembers.removeKey, Json.addField, JMembers.addField, certDataCore, wipeDetailsOf,
      metadataOf]
  have hgs : ((signedPayloadOf ie id ts w).setField "signature" (.str sig')).getStr "signature"
      = sig' := by
    simp [signedPayloadOf, Json.setField, JMembers.setField, Json.getStr, JMembers.lookup,
      Json.addField, JMembers.addField, certDataCore, wipeDetailsOf, metadataOf]
  have hb : (sig' == localSign (((signedPayloadOf ie id ts w).setField "signature"
      (.str sig')).removeField "signature").stringify) = false := by
    rw [hrm, beq_eq_false_iff_ne]
    intro hEq
    exact hs (hEq.trans (signedPayload_sig_eval ie id ts w).symm)
  simp [verifyCertificate, FsState.readJsonFile, FsState.read, List.lookup, verifySignature,
    hgs, hb]

set_option maxRecDepth 100000 in
/-- Witness for claim C3: replacing the scenario certificate's signature by
the string bogus is reported as an invalid signature. -/
theorem claim3_witness :
    verifyCertificate ⟨.localKeys⟩ (.ok true)
      [("cert-1" ++ ".json",
        .json ((signedPayloadOf none "cert-1" "TS1" sampleWipe).setField "signature"
          (.str "bogus")))] "cert-1"
    = (.invalid "Invalid signature", [.kmsVerifyCall]) :=
  claim3_signature_tamper_yields_invalid_signature (.ok true) none "cert-1" "TS1" sampleWipe
    [] "bogus" (by decide)

set_option maxRecDepth 100000 in
/-- Claim C4 counterexample: when the remote KMS verify call of the aws
backend fails (for example a timeout), the verification pipeline returns the
invalid-signature verdict for the untampered issued certificate instead of a
distinct retryable signing-unavailable outcome. -/
theorem claim4_counterexample :
    (verifyCertificate ⟨.aws⟩ (.err "connect ETIMEDOUT") issuedStore "cert-1").1
    = .invalid "Invalid signature" := by
  decide

/-- Claim C4 (amended): a failed remote verify call is not surfaced as a
distinct retryable outcome; KMSService.verifySignature catches the error and
returns false, so for the aws and gcp backends the verification pipeline
reports valid:false with the invalid-signature reason for every stored
certificate whenever the remote call fails.  No signing-unavailable outcome
exists on the verification path. -/
theorem claim4_remote_failure_reported_as_invalid_signature
    (msg id : String) (payload : Json) (rest : FsState) :
    verifyCertificate ⟨.aws⟩ (.err msg) ((id ++ ".json", .json payload) :: rest) id
      = (.invalid "Invalid signature", [.kmsVerifyCall])
    ∧ verifyCertificate ⟨.gcp⟩ (.err msg) ((id ++ ".json", .json payload) :: rest) id
      = (.invalid "Invalid signature", [.kmsVerifyCall]) := by
  constructor <;>
    simp [verifyCertificate, FsState.readJsonFile, FsState.read, List.lookup, verifySignature]

/-- Claim C5: the integrity digest computed at issuance does not depend on
any value nested inside wipeDetails or metadata: payloads agreeing on the
top-level primitives (certificateId, timestamp, version, issuer) hash
identically whatever the nested values are, because the sorted top-level key
list passed as the stringify replacer filters out every nested key and the
nested objects serialize as empty. -/
theorem claim5_digest_ignores_nested_values (id ts iss : String) (w1 w2 : WipeData) :
    generateDataHash (Json.obj (certDataCore id ts iss w1))
    = generateDataHash (Json.obj (certDataCore id ts iss w2)) := by
  have hk : ∀ w : WipeData, (Json.obj (certDataCore id ts iss w)).topKeys
      = ["certificateId", "timestamp", "version", "issuer", "wipeDetails", "metadata"] :=
    fun w => rfl
  simp [generateDataHash, hk, sortKeys6, Json.stringifyR, JMembers.renderMembers, orderByK,
    List.filterMap, List.lookup, certDataCore, wipeDetailsOf, metadataOf, commaJoin]

set_option maxRecDepth 10000 in
/-- Claim C6 counterexample: two payloads with identical key/value sets but
opposite construction order; the digest canonicalization agrees on them, but
the bytes handed to the signing call (plain stringify in insertion order)
differ, so canonical bytes for hashing and signing are not both
order-independent as the claim states. -/
theorem claim6_counterexample :
    permA.toList ~ permB.toList
    ∧ (Json.obj permA).stringify ≠ (Json.obj permB).stringify
    ∧ generateDataHash (.obj permA) = generateDataHash (.obj permB) := by
  refine ⟨by decide, by decide, by decide⟩

/-- Claim C6 (amended): the digest canonicalization is order-independent —
two objects with the same key/value set (distinct keys) in any insertion
orders produce identical digests, since the sorted-key replacer array fixes
the serialization order — but the bytes signed at issuance are produced by
plain stringify in insertion order and are not order-independent. -/
theorem claim6_hash_order_independent_signing_not :
    (∀ ms1 ms2 : JMembers, ms1.toList ~ ms2.toList → (ms1.toList.map Prod.fst).Nodup →
      generateDataHash (.obj ms1) = generateDataHash (.obj ms2))
    ∧ (∃ ms1 ms2 : JMembers, ms1.toList ~ ms2.toList
        ∧ (Json.obj ms1).stringify ≠ (Json.obj ms2).stringify) := by
  refine ⟨fun ms1 ms2 hp hn => gdh_of_perm ms1 ms2 hp hn, permA, permB, by decide, by decide⟩

set_option maxRecDepth 10000 in
/-- Witness for claim C6 (amended): the order-independence of the digest,
instantiated on the concrete reordered pair. -/
theorem claim6_witness : generateDataHash (.obj permA) = generateDataHash (.obj permB) :=
  claim6_hash_order_independent_signing_not.1 permA permB (by decide) (by decide)

set_option maxRecDepth 10000 in
/-- Claim C7 counterexample: an issuance run whose final metadata write
fails returns an error, yet the already-written PDF artifact for the new
certificateId remains visible in the certificate directory — a partial
artifact of a failed issuance, contradicting the claimed atomicity. -/
theorem claim7_counterexample :
    failedRunLocal.1 = .error "Certificate generation failed: metadata write failed"
    ∧ failedRunLocal.2.read ("cert-2" ++ ".pdf")
      = some (.pdf (signedPayloadOf none "cert-2" "TS2" sampleWipe))
    ∧ failedRunLocal.2.read ("cert-2" ++ ".json") = none := by
  refine ⟨by decide, by decide, by decide⟩

/-- Claim C7 (amended): issuance is not atomic.  A signing failure persists
nothing; but on the success path the PDF is written before the JSON metadata
with plain direct writes (no temporary file, no atomic rename), so when the
metadata write fails the pipeline returns an error while the PDF artifact
for the new certificateId stays visible and the metadata file is absent;
when the metadata write succeeds the metadata file is visible. -/
theorem claim7_persistence_not_atomic (so : RemoteSign) (ie ab : Option String)
    (id ts : String) (w : WipeData) (fs : FsState) :
    (∀ msg, generateCertificate ⟨.aws⟩ (.err msg) ie ab id ts w true fs
      = (.error ("Certificate generation failed: " ++ msg), fs))
    ∧ ((generateCertificate ⟨.localKeys⟩ so ie ab id ts w false fs).1
        = .error "Certificate generation failed: metadata write failed"
      ∧ (generateCertificate ⟨.localKeys⟩ so ie ab id ts w false fs).2.read (id ++ ".pdf")
        = some (.pdf (signedPayloadOf ie id ts w))
      ∧ (generateCertificate ⟨.localKeys⟩ so ie ab id ts w false fs).2.read (id ++ ".json")
        = fs.read (id ++ ".json"))
    ∧ ((generateCertificate ⟨.localKeys⟩ so ie ab id ts w true fs).2.read (id ++ ".json")
        = some (.json (signedPayloadOf ie id ts w))) := by
  refine ⟨fun msg => rfl, ⟨rfl, ?_, ?_⟩, ?_⟩
  · simp [generateCertificate, signData, FsState.write, FsState.read, List.lookup,
      signedPayloadOf]
  · simp [generateCertificate, signData, FsState.write, FsState.read, List.lookup,
      (beq_eq_false_iff_ne).mpr (json_ne_pdf id)]
  · simp [generateCertificate, signData, FsState.write, FsState.read, List.lookup,
      signedPayloadOf]

set_option maxRecDepth 100000 in
/-- Claim C8 counterexample: for a certificate whose stored dataHash alone
is tampered, the run still performs the KMS signature verification call (the
event trace contains it) and never reaches the digest comparison, returning
the invalid-signature verdict — the digest mismatch does not short-circuit
the signature call as the claim states. -/
theorem claim8_counterexample :
    verifyCertificate ⟨.localKeys⟩ (.ok true) tamperedHashStore "cert-1"
      = (.invalid "Invalid signature", [.kmsVerifyCall])
    ∧ VEvent.digestCheck ∉ (verifyCertificate ⟨.localKeys⟩ (.ok true) tamperedHashStore
        "cert-1").2 := by
  refine ⟨by decide, by decide⟩

/-- Claim C8 (amended): the check order is the reverse of the claim: in
every verification run that loads a certificate the KMS signature
verification call comes first, and the digest comparison runs only after the
signature check passes; the only possible event traces are the empty trace
(missing certificate), the signature call alone, or the signature call
followed by the digest comparison. -/
theorem claim8_signature_checked_before_digest (svc : KMSService) (oracle : RemoteVerify)
    (fs : FsState) (cid : String) :
    ((verifyCertificate svc oracle fs cid).2 = []
      ∧ (verifyCertificate svc oracle fs cid).1 = .invalid "Certificate not found")
    ∨ (verifyCertificate svc oracle fs cid).2 = [.kmsVerifyCall]
    ∨ (verifyCertificate svc oracle fs cid).2 = [.kmsVerifyCall, .digestCheck] := by
  cases h : fs.readJsonFile (cid ++ ".json") with
  | none => left; simp [verifyCertificate, h]
  | some cd =>
    cases hb : verifySignature svc oracle (cd.removeField "signature").stringify
        (cd.getStr "signature") with
    | false => right; left; simp [verifyCertificate, h, hb]
    | true =>
      right; right
      simp only [verifyCertificate, h]
      cases hh : (generateDataHash (cd.removeField "signature") != cd.getStr "dataHash") <;>
        simp [hb, hh]

/-- Claim C9: provider selection happens once at startup: the detector
agrees with the spec-side selector (first variant in the fixed order aws,
gcp, azure whose required settings are all present and non-empty; otherwise
the local fallback together with the non-fatal warning), the constructed
service stores that choice, and every sign and verify call dispatches on the
stored choice. -/
theorem claim9_provider_selection (env : String → Option String) :
    detectProvider env = specSelectProvider env
    ∧ (mkKMSService env).provider = (specSelectProvider env).1
    ∧ (∀ ro d, signData (mkKMSService env) ro d = signData ⟨(specSelectProvider env).1⟩ ro d)
    ∧ (∀ ro d s, verifySignature (mkKMSService env) ro d s
        = verifySignature ⟨(specSelectProvider env).1⟩ ro d s) := by
  have h := detect_eq_spec env
  refine ⟨h, ?_, ?_, ?_⟩ <;> simp [mkKMSService, h]

/-- Claim C10: the derived duration string: a 90-second difference renders
as 1m 30s; in general the rendering shows the whole hours, the minute
component and the second component of endTime minus startTime, omitting the
leading components that are zero; and the issued wipeDetails carry exactly
this derived string. -/
theorem claim10_duration_rendering :
    (∀ start : Nat, calculateDuration start (start + 90000) = "1m 30s")
    ∧ (∀ start h m s : Nat, m < 60 → s < 60 →
        calculateDuration start (start + (h * 3600000 + m * 60000 + s * 1000))
        = (if h > 0 then toString h ++ "h " ++ toString m ++ "m " ++ toString s ++ "s"
           else if m > 0 then toString m ++ "m " ++ toString s ++ "s"
           else toString s ++ "s"))
    ∧ (∀ w : WipeData, (wipeDetailsOf w).lookup "duration"
        = some (.str (calculateDuration w.startTime w.endTime))) := by
  refine ⟨fun start => ?_, fun start h m s hm hs => ?_, fun w => ?_⟩
  · simp [calculateDuration]
    rfl
  · have hd : start + (h * 3600000 + m * 60000 + s * 1000) - start
        = h * 3600000 + m * 60000 + s * 1000 := by omega
    have hh : (h * 3600000 + m * 60000 + s * 1000) / 3600000 = h := by omega
    have hmm : (h * 3600000 + m * 60000 + s * 1000) % 3600000 / 60000 = m := by omega
    have hss : (h * 3600000 + m * 60000 + s * 1000) % 60000 / 1000 = s := by omega
    simp only [calculateDuration, hd, hh, hmm, hss]
  · simp [wipeDetailsOf, JMembers.lookup]

/-- Witness for claim C10: two hours and five seconds render as 2h 0m 5s
(the minute component is kept once an hour component is shown). -/
theorem claim10_witness :
    calculateDuration 0 (0 + (2 * 3600000 + 0 * 60000 + 5 * 1000)) = "2h 0m 5s" := by
  rw [claim10_duration_rendering.2.1 0 2 0 5 (by decide) (by decide)]
  rfl
